import Mathlib

/-!
Shallow embedding of the offline-first synchronization core of the
carnet-naturaliste application (src/services/storageService.ts and the
merge-import fold of src/App.tsx), together with theorems settling the
stated claims about it.

Conventions of the embedding:
* TypeScript string enums (TaxonomicGroup, Status, ...) are represented by
  their underlying string values (`String`), since no claim inspects them.
* JavaScript numbers that only flow through the record unexamined
  (count, gps, altitude) are represented as `Int` / `Option Int`.
* `Date.now()` is a `Nat` parameter `now`; JavaScript string interpolation
  of a number is `toString`.
* `localStorage` state (the Local Cache and the offline queue) is passed
  and returned explicitly; `navigator.onLine` is a `Bool` parameter.
* Remote (Supabase) calls are parameters: a mutating call either succeeds
  or fails with an error message (`Except String`); a select returns
  `data` that may be null (`Option`), matching the client's
  `{ data, error }` convention.
-/

/-- The nested `gps` object of an Observation (`{ lat, lon }`,
each `number | null` in src/types.ts). -/
structure Gps where
  lat : Option Int
  lon : Option Int
deriving DecidableEq, Repr

/-- The `Observation` interface of src/types.ts. String enums are carried
as their string values; optional fields are `Option`. -/
structure Observation where
  id : String
  speciesName : String
  latinName : String
  taxonomicGroup : String
  date : String
  time : String
  count : Int
  location : String
  gps : Gps
  municipality : String
  department : String
  country : String
  altitude : Option Int
  comment : String
  status : String
  atlasCode : String
  protocol : String
  sexe : String
  age : String
  observationCondition : String
  comportement : String
  photo : Option String
  sound : Option String
  wikipediaImage : Option String
deriving DecidableEq, Repr

/-- The object literal built by `mapToRow` in src/services/storageService.ts.
It deliberately has NO `id` field: `mapToRow` never copies `obs.id`. -/
structure Row where
  user_id : String
  species_name : String
  latin_name : String
  taxonomic_group : String
  date : String
  time : String
  count : Int
  location : String
  gps_lat : Option Int
  gps_lon : Option Int
  municipality : String
  department : String
  country : String
  altitude : Option Int
  comment : String
  status : String
  atlas_code : String
  protocol : String
  sexe : String
  age : String
  observation_condition : String
  comportement : String
  photo_url : Option String
  wikipedia_image : Option String
  sound_url : Option String
deriving DecidableEq, Repr

/-- A row as returned by the Supabase `observations` table
(`select('*')` or `.insert(row).select().single()`): the fields of `Row`
plus the server-held `id` column read by `mapToObservation`. -/
structure DbRow where
  id : String
  user_id : String
  species_name : String
  latin_name : String
  taxonomic_group : String
  date : String
  time : String
  count : Int
  location : String
  gps_lat : Option Int
  gps_lon : Option Int
  municipality : String
  department : String
  country : String
  altitude : Option Int
  comment : String
  status : String
  atlas_code : String
  protocol : String
  sexe : String
  age : String
  observation_condition : String
  comportement : String
  photo_url : Option String
  wikipedia_image : Option String
  sound_url : Option String
deriving DecidableEq, Repr

/-- `mapToObservation` of src/services/storageService.ts. -/
def mapToObservation (row : DbRow) : Observation :=
  { id := row.id
  , speciesName := row.species_name
  , latinName := row.latin_name
  , taxonomicGroup := row.taxonomic_group
  , date := row.date
  , time := row.time
  , count := row.count
  , location := row.location
  , gps := { lat := row.gps_lat, lon := row.gps_lon }
  , municipality := row.municipality
  , department := row.department
  , country := row.country
  , altitude := row.altitude
  , comment := row.comment
  , status := row.status
  , atlasCode := row.atlas_code
  , protocol := row.protocol
  , sexe := row.sexe
  , age := row.age
  , observationCondition := row.observation_condition
  , comportement := row.comportement
  , photo := row.photo_url
  , wikipediaImage := row.wikipedia_image
  , sound := row.sound_url }

/-- `mapToRow` of src/services/storageService.ts. Note the absence of any
`id` field in the result: placeholder or server ids are never copied into
the row sent to the store. -/
def mapToRow (obs : Observation) (userId : String) : Row :=
  { user_id := userId
  , species_name := obs.speciesName
  , latin_name := obs.latinName
  , taxonomic_group := obs.taxonomicGroup
  , date := obs.date
  , time := obs.time
  , count := obs.count
  , location := obs.location
  , gps_lat := obs.gps.lat
  , gps_lon := obs.gps.lon
  , municipality := obs.municipality
  , department := obs.department
  , country := obs.country
  , altitude := obs.altitude
  , comment := obs.comment
  , status := obs.status
  , atlas_code := obs.atlasCode
  , protocol := obs.protocol
  , sexe := obs.sexe
  , age := obs.age
  , observation_condition := obs.observationCondition
  , comportement := obs.comportement
  , photo_url := obs.photo
  , wikipedia_image := obs.wikipediaImage
  , sound_url := obs.sound }

/-- One entry of the offline queue, `{ action, payload, timestamp }` as
pushed by `addToQueue`. The payload of an INSERT or UPDATE is a full
observation; a DELETE is queued as `{ id }` only. -/
inductive QueueItem where
  | insert (payload : Observation) (timestamp : Nat)
  | update (payload : Observation) (timestamp : Nat)
  | delete (id : String) (timestamp : Nat)
deriving DecidableEq, Repr

/-- `addToQueue` of src/services/storageService.ts: push onto the stored
queue. -/
def addToQueue (queue : List QueueItem) (item : QueueItem) : List QueueItem :=
  queue ++ [item]

/-- A mutating call issued to the remote store (the Supabase
`observations` table). -/
inductive RemoteCall where
  | insertRow (row : Row)
  | upsertRow (row : Row)
  | updateRow (row : Row) (id : String)
  | deleteRow (id : String)
deriving DecidableEq, Repr

/-- Outcome of one of the CRUD entry points: the value returned (or the
message of the thrown error) together with the Local Cache and offline
queue as left in localStorage. -/
structure MutOutcome (α : Type) where
  result : Except String α
  cache : List Observation
  queue : List QueueItem
deriving Repr

/-- `getObservations` of src/services/storageService.ts. Returns the pair
(value returned to the caller, Local Cache afterwards). Offline, the cache
is read and returned; online, a successful fetch overwrites the cache and
a failed fetch falls back to the cache. -/
def getObservations (online : Bool) (remote : Except String (List DbRow))
    (cache : List Observation) : List Observation × List Observation :=
  if !online then (cache, cache)
  else
    match remote with
    | .error _ => (cache, cache)
    | .ok data =>
        let observations := data.map mapToObservation
        (observations, observations)

/-- `saveObservation` of src/services/storageService.ts. `user` is the id
of the authenticated user, if any; `remoteInsert` is the
`.insert(row).select().single()` call; `now` stands for `Date.now()`. -/
def saveObservation (online : Bool) (user : Option String) (now : Nat)
    (remoteInsert : Row → Except String DbRow) (observation : Observation)
    (cache : List Observation) (queue : List QueueItem) :
    MutOutcome Observation :=
  if user.isNone && online then
    ⟨.error "User not authenticated", cache, queue⟩
  else
    let userId := user.getD "offline-user"
    if !online then
      let offlineObs :=
        { observation with
          id := if observation.id ≠ "" then observation.id
                else "temp-" ++ toString now }
      ⟨.ok offlineObs, offlineObs :: cache,
        addToQueue queue (.insert offlineObs now)⟩
    else
      let row := mapToRow observation userId
      match remoteInsert row with
      | .error msg => ⟨.error msg, cache, queue⟩
      | .ok data =>
          let savedObs := mapToObservation data
          ⟨.ok savedObs, savedObs :: cache, queue⟩

/-- `updateObservation` of src/services/storageService.ts. `remoteUpdate`
is the `.update(row).eq('id', observation.id)` call. -/
def updateObservation (online : Bool) (user : Option String) (now : Nat)
    (remoteUpdate : Row → String → Except String Unit)
    (observation : Observation) (cache : List Observation)
    (queue : List QueueItem) : MutOutcome Unit :=
  let userId := user.getD "offline-user"
  if !online then
    ⟨.ok (), cache.map (fun obs => if obs.id = observation.id then observation else obs),
      addToQueue queue (.update observation now)⟩
  else
    let row := mapToRow observation userId
    match remoteUpdate row observation.id with
    | .error msg => ⟨.error msg, cache, queue⟩
    | .ok _ =>
        ⟨.ok (), cache.map (fun obs => if obs.id = observation.id then observation else obs),
          queue⟩

/-- `deleteObservation` of src/services/storageService.ts. `remoteDelete`
is the `.delete().eq('id', id)` call. -/
def deleteObservation (online : Bool) (now : Nat)
    (remoteDelete : String → Except String Unit) (id : String)
    (cache : List Observation) (queue : List QueueItem) : MutOutcome Unit :=
  if !online then
    ⟨.ok (), cache.filter (fun obs => obs.id ≠ id),
      addToQueue queue (.delete id now)⟩
  else
    match remoteDelete id with
    | .error msg => ⟨.error msg, cache, queue⟩
    | .ok _ => ⟨.ok (), cache.filter (fun obs => obs.id ≠ id), queue⟩

/-- Processing of one queue item inside the drain loop of
`processOfflineQueue` (the body of the per-item `try`). Returns the
remote calls issued for the item and whether the item was processed
without throwing.

The source's INSERT branch reads the variable `id` in
`String(id).startsWith('temp-')`, but no `id` is in scope anywhere in
`processOfflineQueue`: at run time evaluating it raises a ReferenceError
before any remote call is made, and the error is caught by the per-item
handler. An INSERT item therefore issues no call and always counts as
failed. -/
def processItem (remoteOk : RemoteCall → Bool) (userId : String) :
    QueueItem → List RemoteCall × Bool
  | .insert _payload _ts => ([], false)
  | .update payload _ts =>
      let call := RemoteCall.updateRow (mapToRow payload userId) payload.id
      ([call], remoteOk call)
  | .delete id _ts =>
      let call := RemoteCall.deleteRow id
      ([call], remoteOk call)

/-- The sequential `for (const item of queue)` loop of
`processOfflineQueue`: returns the rebuilt `newQueue` (failed items, in
order) and the concatenated trace of remote calls issued. -/
def drainLoop (remoteOk : RemoteCall → Bool) (userId : String) :
    List QueueItem → List QueueItem × List RemoteCall
  | [] => ([], [])
  | item :: rest =>
      let r := processItem remoteOk userId item
      let t := drainLoop remoteOk userId rest
      (if r.2 then t.1 else item :: t.1, r.1 ++ t.2)

/-- State left behind by `processOfflineQueue`, plus the trace of remote
mutating calls it issued. -/
structure DrainResult where
  queue : List QueueItem
  cache : List Observation
  calls : List RemoteCall
deriving Repr

/-- `processOfflineQueue` of src/services/storageService.ts. `user` is
the authenticated user id, if any; `remoteOk` says which mutating calls
the remote store accepts; `fetchData` is the `data` of the final
cache-refresh `select('*')` (null on a failed fetch). -/
def processOfflineQueue (online : Bool) (user : Option String)
    (remoteOk : RemoteCall → Bool) (fetchData : Option (List DbRow))
    (queue : List QueueItem) (cache : List Observation) : DrainResult :=
  if !online then ⟨queue, cache, []⟩
  else if queue.isEmpty then ⟨queue, cache, []⟩
  else
    match user with
    | none => ⟨queue, cache, []⟩
    | some userId =>
        let d := drainLoop remoteOk userId queue
        if d.1.isEmpty then
          match fetchData with
          | some data => ⟨d.1, data.map mapToObservation, d.2⟩
          | none => ⟨d.1, cache, d.2⟩
        else ⟨d.1, cache, d.2⟩

/-- The merge fold of `handleImportRequest` in src/App.tsx: for each
incoming record, `findIndex` an existing record with the same id and
replace it in place, else push it at the end. -/
def mergeImport (observations : List Observation)
    (importedObservations : List Observation) : List Observation :=
  importedObservations.foldl
    (fun merged newObs =>
      match merged.findIdx? (fun existingObs => existingObs.id = newObs.id) with
      | some index => merged.set index newObs
      | none => merged ++ [newObs])
    observations

/-- A list of observations has pairwise distinct ids. -/
def IdUnique (l : List Observation) : Prop :=
  (l.map Observation.id).Nodup

instance (l : List Observation) : Decidable (IdUnique l) := by
  unfold IdUnique; infer_instance

/-- One exposed operation of the core, carrying the environment it runs
under (connectivity, authenticated user, clock, and the responses of the
remote store for the calls it makes). -/
inductive Op where
  | fetchOp (online : Bool) (remote : Except String (List DbRow))
  | createOp (online : Bool) (user : Option String) (now : Nat)
      (remoteInsert : Row → Except String DbRow) (obs : Observation)
  | updateOp (online : Bool) (user : Option String) (now : Nat)
      (remoteUpdate : Row → String → Except String Unit) (obs : Observation)
  | deleteOp (online : Bool) (now : Nat)
      (remoteDelete : String → Except String Unit) (id : String)
  | importOp (batch : List Observation)
  | drainOp (online : Bool) (user : Option String)
      (remoteOk : RemoteCall → Bool) (fetchData : Option (List DbRow))

/-- The persistent state of the core: Local Cache and offline queue. -/
structure SyncState where
  cache : List Observation
  queue : List QueueItem
deriving Repr

/-- Effect of one exposed operation on the persistent state. `importOp`
leaves both untouched: `handleImportRequest` writes the merged collection
to React state and pushes it to the remote store via `syncObservations`,
but never writes the Local Cache or the queue. -/
def step (s : SyncState) : Op → SyncState
  | .fetchOp online remote =>
      { s with cache := (getObservations online remote s.cache).2 }
  | .createOp online user now remoteInsert obs =>
      let o := saveObservation online user now remoteInsert obs s.cache s.queue
      ⟨o.cache, o.queue⟩
  | .updateOp online user now remoteUpdate obs =>
      let o := updateObservation online user now remoteUpdate obs s.cache s.queue
      ⟨o.cache, o.queue⟩
  | .deleteOp online now remoteDelete id =>
      let o := deleteObservation online now remoteDelete id s.cache s.queue
      ⟨o.cache, o.queue⟩
  | .importOp _batch => s
  | .drainOp online user remoteOk fetchData =>
      let d := processOfflineQueue online user remoteOk fetchData s.queue s.cache
      ⟨d.cache, d.queue⟩

/-- Run a sequence of exposed operations from a starting state. -/
def run (s : SyncState) : List Op → SyncState
  | [] => s
  | op :: ops => run (step s op) ops

/-- A blank observation used to build concrete scenarios. -/
def obs0 : Observation :=
  { id := "", speciesName := "", latinName := "", taxonomicGroup := ""
  , date := "", time := "", count := 0, location := ""
  , gps := { lat := none, lon := none }
  , municipality := "", department := "", country := "", altitude := none
  , comment := "", status := "", atlasCode := "", protocol := ""
  , sexe := "", age := "", observationCondition := "", comportement := ""
  , photo := none, sound := none, wikipediaImage := none }

/-- A record created offline, carrying a placeholder id. -/
def tempObs : Observation :=
  { obs0 with id := "temp-1", speciesName := "Merle noir" }

/-- A record carrying a server-style id. -/
def srvObs : Observation := { obs0 with id := "srv-9" }

/-- A string extended by the placeholder prefix is never empty. -/
theorem temp_append_ne_empty (s : String) : "temp-" ++ s ≠ "" := by
  intro h
  have h2 := congrArg String.length h
  rw [String.length_append] at h2
  have h5 : ("temp-" : String).length = 5 := rfl
  rw [h5] at h2
  simp at h2

/-- Replacing-by-id maps a cache identically when no entry matches. -/
theorem map_replace_of_no_match {cache : List Observation} {n : Observation}
    (h : ∀ o ∈ cache, o.id ≠ n.id) :
    cache.map (fun obs => if obs.id = n.id then n else obs) = cache := by
  induction cache with
  | nil => rfl
  | cons a l ih =>
      simp only [List.map_cons]
      rw [if_neg (h a (List.mem_cons_self a l)),
        ih (fun o ho => h o (List.mem_cons_of_mem a ho))]

/-- C7: immediately after an offline create returns, the Local Cache holds
the new record, which the call also returned; its id is non-empty, and
when the input carried no id the assigned placeholder is
`temp-` followed by the clock value (so it matches the pattern temp-*). -/
theorem offline_create_optimistic_visibility
    (user : Option String) (now : Nat)
    (remoteInsert : Row → Except String DbRow) (observation : Observation)
    (cache : List Observation) (queue : List QueueItem) :
    ∃ saved : Observation,
      saveObservation false user now remoteInsert observation cache queue
        = ⟨.ok saved, saved :: cache, queue ++ [.insert saved now]⟩ ∧
      saved ∈ (saveObservation false user now remoteInsert observation cache
        queue).cache ∧
      saved.id ≠ "" ∧
      (observation.id = "" → saved.id = "temp-" ++ toString now) := by
  refine ⟨{ observation with
      id := if observation.id ≠ "" then observation.id
            else "temp-" ++ toString now }, ?_, ?_, ?_, ?_⟩
  · simp [saveObservation, addToQueue]
  · simp [saveObservation, addToQueue]
  · by_cases h : observation.id = ""
    · simpa [h] using temp_append_ne_empty (toString now)
    · simp [h]
  · intro h
    simp [h]

/-- Closed instance of the C7 theorem at a concrete offline create. -/
theorem offline_create_optimistic_visibility_witness :
    ∃ saved : Observation,
      saveObservation false none 3 (fun _ => .error "")
          { obs0 with speciesName := "Merle noir" } [] []
        = ⟨.ok saved, saved :: [], [] ++ [.insert saved 3]⟩ ∧
      saved ∈ (saveObservation false none 3 (fun _ => .error "")
          { obs0 with speciesName := "Merle noir" } [] []).cache ∧
      saved.id ≠ "" ∧
      (({ obs0 with speciesName := "Merle noir" } : Observation).id = "" →
        saved.id = "temp-" ++ toString 3) :=
  offline_create_optimistic_visibility none 3 (fun _ => .error "")
    { obs0 with speciesName := "Merle noir" } [] []

/-- C8: getObservations returns the Local Cache unchanged when offline and
when the remote fetch fails, and on a successful fetch returns the fetched
records while overwriting the cache with them. -/
theorem getObservations_read_path
    (remote : Except String (List DbRow)) (e : String) (data : List DbRow)
    (cache : List Observation) :
    getObservations false remote cache = (cache, cache) ∧
    getObservations true (.error e) cache = (cache, cache) ∧
    getObservations true (.ok data) cache
      = (data.map mapToObservation, data.map mapToObservation) :=
  ⟨rfl, rfl, rfl⟩

/-- C9: an online drain over a non-empty queue with no authenticated user
issues no remote call and leaves queue and cache untouched. -/
theorem drain_no_user_frame
    (remoteOk : RemoteCall → Bool) (fetchData : Option (List DbRow))
    (queue : List QueueItem) (cache : List Observation)
    (h : queue ≠ []) :
    processOfflineQueue true none remoteOk fetchData queue cache
      = ⟨queue, cache, []⟩ := by
  cases hq : queue.isEmpty <;> simp [processOfflineQueue, hq]

/-- Closed instance of the C9 theorem at a concrete one-item queue. -/
theorem drain_no_user_frame_witness :
    ([QueueItem.update srvObs 1] : List QueueItem) ≠ [] ∧
    processOfflineQueue true none (fun _ => true) none
        [QueueItem.update srvObs 1] [obs0]
      = ⟨[QueueItem.update srvObs 1], [obs0], []⟩ :=
  ⟨by simp, drain_no_user_frame (fun _ => true) none
    [QueueItem.update srvObs 1] [obs0] (by simp)⟩

/-- C10: an offline update or delete whose target id matches nothing in
the Local Cache still appends its operation to the queue while leaving the
cache exactly unchanged. -/
theorem offline_update_delete_unmatched_frame
    (user : Option String) (now : Nat)
    (remoteUpdate : Row → String → Except String Unit)
    (remoteDelete : String → Except String Unit)
    (observation : Observation) (id : String)
    (cache : List Observation) (queue : List QueueItem)
    (hu : ∀ o ∈ cache, o.id ≠ observation.id)
    (hd : ∀ o ∈ cache, o.id ≠ id) :
    updateObservation false user now remoteUpdate observation cache queue
      = ⟨.ok (), cache, queue ++ [.update observation now]⟩ ∧
    deleteObservation false now remoteDelete id cache queue
      = ⟨.ok (), cache, queue ++ [.delete id now]⟩ := by
  constructor
  · simp [updateObservation, addToQueue, map_replace_of_no_match hu]
  · have hf : cache.filter (fun obs => obs.id ≠ id) = cache :=
      List.filter_eq_self.mpr (fun a ha => by simpa using hd a ha)
    simp [deleteObservation, addToQueue, hf]
    exact hd

/-- Closed instance of the C10 theorem: update/delete aimed at id srv-9
over a cache holding only an id-a record. -/
theorem offline_update_delete_unmatched_frame_witness :
    updateObservation false none 5 (fun _ _ => .ok ()) srvObs
        [{ obs0 with id := "a" }] []
      = ⟨.ok (), [{ obs0 with id := "a" }], [] ++ [.update srvObs 5]⟩ ∧
    deleteObservation false 5 (fun _ => .ok ()) "srv-9"
        [{ obs0 with id := "a" }] []
      = ⟨.ok (), [{ obs0 with id := "a" }], [] ++ [.delete "srv-9" 5]⟩ :=
  offline_update_delete_unmatched_frame none 5 (fun _ _ => .ok ())
    (fun _ => .ok ()) srvObs "srv-9" [{ obs0 with id := "a" }] []
    (by decide) (by decide)

/-- C2 counterexample: an online create whose remote insert fails is
thrown to the caller ("network" surfaces as a hard error), nothing is
appended to the pending log and the Local Cache is untouched — not the
queued-for-retry fallback the claim describes. -/
theorem online_create_failure_not_queued :
    saveObservation true (some "u") 0 (fun _ => .error "network")
        tempObs [] []
      = ⟨.error "network", [], []⟩ := rfl

/-- C2 amended: a remote failure of an online create, update or delete is
surfaced to the caller as a thrown error, and both the pending log and the
Local Cache are left exactly unchanged (there is no offline fallback). -/
theorem online_remote_failure_surfaced
    (user : String) (now : Nat) (observation : Observation) (id : String)
    (cache : List Observation) (queue : List QueueItem)
    (ri : Row → Except String DbRow) (ru : Row → String → Except String Unit)
    (rd : String → Except String Unit) (m₁ m₂ m₃ : String)
    (hi : ri (mapToRow observation user) = .error m₁)
    (hu : ru (mapToRow observation user) observation.id = .error m₂)
    (hd : rd id = .error m₃) :
    saveObservation true (some user) now ri observation cache queue
      = ⟨.error m₁, cache, queue⟩ ∧
    updateObservation true (some user) now ru observation cache queue
      = ⟨.error m₂, cache, queue⟩ ∧
    deleteObservation true now rd id cache queue
      = ⟨.error m₃, cache, queue⟩ := by
  refine ⟨?_, ?_, ?_⟩
  · simp [saveObservation, hi]
  · simp [updateObservation, hu]
  · simp [deleteObservation, hd]

/-- Closed instance of the amended C2 theorem with concrete failing
remote calls. -/
theorem online_remote_failure_surfaced_witness :
    saveObservation true (some "u") 0 (fun _ => .error "down") srvObs
        [obs0] []
      = ⟨.error "down", [obs0], []⟩ ∧
    updateObservation true (some "u") 0 (fun _ _ => .error "down") srvObs
        [obs0] []
      = ⟨.error "down", [obs0], []⟩ ∧
    deleteObservation true 0 (fun _ => .error "down") "srv-9" [obs0] []
      = ⟨.error "down", [obs0], []⟩ :=
  online_remote_failure_surfaced "u" 0 srvObs "srv-9" [obs0] []
    (fun _ => .error "down") (fun _ _ => .error "down")
    (fun _ => .error "down") "down" "down" "down" rfl rfl rfl

/-- C1: evaluation of the drain at a queued INSERT with placeholder id
temp-1, online, authenticated, against a remote store accepting every
call. No remote call at all is issued (the source's
String(id).startsWith evaluates the undefined variable id and the
ReferenceError is caught by the per-item handler), and the item stays
queued instead of being submitted as a create. -/
theorem drain_insert_never_submitted :
    processOfflineQueue true (some "u") (fun _ => true) (some [])
        [.insert tempObs 0] [obs0]
      = ⟨[.insert tempObs 0], [obs0], []⟩ := rfl

/-- C3: evaluation of the drain at the queue
[INSERT temp-1, UPDATE srv-9, DELETE srv-3], online, authenticated,
against a remote store accepting every call: only the UPDATE and DELETE
are submitted (in order), the INSERT — first in FIFO order — is never
submitted yet is retained, although no submission of it ever failed. -/
theorem drain_insert_skipped_rest_submitted :
    processOfflineQueue true (some "u") (fun _ => true) none
        [.insert tempObs 0, .update srvObs 1, .delete "srv-3" 2] [obs0]
      = ⟨[.insert tempObs 0], [obs0],
         [.updateRow (mapToRow srvObs "u") "srv-9", .deleteRow "srv-3"]⟩ :=
  rfl

/-- C4 counterexample: a drain of [UPDATE srv-9] in which the remote
accepts the call but the final refresh select returns no data (a failed
fetch): the post-drain log is empty, yet the Local Cache is not
overwritten from a fetchAll — it still equals its pre-drain content. -/
theorem drain_empty_log_without_refresh :
    processOfflineQueue true (some "u") (fun _ => true) none
        [.update srvObs 1] [obs0]
      = ⟨[], [obs0], [.updateRow (mapToRow srvObs "u") "srv-9"]⟩ := rfl

/-- C4 amended: after a drain pass (online, authenticated, non-empty
queue), the Local Cache is overwritten with the refresh fetch result iff
the post-drain log is empty AND the refresh select returned data; in
every other case — an item remains queued, or the refresh fetch fails —
the cache equals its pre-drain content. -/
theorem drain_refresh_gating
    (user : String) (remoteOk : RemoteCall → Bool)
    (fetchData : Option (List DbRow)) (queue : List QueueItem)
    (cache : List Observation) (hq : queue ≠ []) :
    ((processOfflineQueue true (some user) remoteOk fetchData queue
        cache).queue = [] →
      (∀ data, fetchData = some data →
        (processOfflineQueue true (some user) remoteOk fetchData queue
          cache).cache = data.map mapToObservation) ∧
      (fetchData = none →
        (processOfflineQueue true (some user) remoteOk fetchData queue
          cache).cache = cache)) ∧
    ((processOfflineQueue true (some user) remoteOk fetchData queue
        cache).queue ≠ [] →
      (processOfflineQueue true (some user) remoteOk fetchData queue
        cache).cache = cache) := by
  have hq' : queue.isEmpty = false := by
    cases queue with
    | nil => exact absurd rfl hq
    | cons a l => rfl
  cases hne : (drainLoop remoteOk user queue).1.isEmpty with
  | true =>
      have hq0 : (drainLoop remoteOk user queue).1 = [] :=
        List.isEmpty_iff.mp hne
      cases fetchData with
      | none => simp [processOfflineQueue, hq', hne, hq0]
      | some data => simp [processOfflineQueue, hq', hne, hq0]
  | false =>
      have hq1 : (drainLoop remoteOk user queue).1 ≠ [] := by
        simpa using List.isEmpty_eq_false.mp hne
      cases fetchData with
      | none => simp [processOfflineQueue, hq', hne, hq1]
      | some data => simp [processOfflineQueue, hq', hne, hq1]

/-- Closed instance of the amended C4 theorem at a one-update queue whose
refresh fetch returns an empty data set. -/
theorem drain_refresh_gating_witness :
    (([QueueItem.update srvObs 1] : List QueueItem) ≠ []) ∧
    (((processOfflineQueue true (some "u") (fun _ => true)
        (some []) [.update srvObs 1] [obs0]).queue = [] →
      (∀ data, (some [] : Option (List DbRow)) = some data →
        (processOfflineQueue true (some "u") (fun _ => true)
          (some []) [.update srvObs 1] [obs0]).cache
            = data.map mapToObservation) ∧
      ((some [] : Option (List DbRow)) = none →
        (processOfflineQueue true (some "u") (fun _ => true)
          (some []) [.update srvObs 1] [obs0]).cache = [obs0])) ∧
    ((processOfflineQueue true (some "u") (fun _ => true)
        (some []) [.update srvObs 1] [obs0]).queue ≠ [] →
      (processOfflineQueue true (some "u") (fun _ => true)
        (some []) [.update srvObs 1] [obs0]).cache = [obs0])) :=
  ⟨by simp, drain_refresh_gating "u" (fun _ => true) (some [])
    [.update srvObs 1] [obs0] (by simp)⟩

/-- A merge-import of a single record matching nothing appends it. -/
theorem mergeImport_singleton_no_match (ex : List Observation)
    (r : Observation) (h : ∀ o ∈ ex, o.id ≠ r.id) :
    mergeImport ex [r] = ex ++ [r] := by
  have hnone : ex.findIdx? (fun o => o.id = r.id) = none :=
    List.findIdx?_eq_none_iff.mpr (fun o ho => by simpa using h o ho)
  simp [mergeImport, hnone]

/-- A merge-import of a single record whose id occurs in an id-unique
current set replaces that record in place, field-insensitively. -/
theorem mergeImport_singleton_match (ex : List Observation) (r : Observation)
    (hnodup : IdUnique ex) (hmem : ∃ o ∈ ex, o.id = r.id) :
    mergeImport ex [r] = ex.map (fun o => if o.id = r.id then r else o) := by
  induction ex with
  | nil => simp at hmem
  | cons a l ih =>
      have hno : a.id ∉ l.map Observation.id ∧ (l.map Observation.id).Nodup := by
        simpa [IdUnique, List.nodup_cons] using hnodup
      by_cases ha : a.id = r.id
      · have hl : ∀ o ∈ l, o.id ≠ r.id := by
          intro o ho hoid
          exact hno.1 (by
            rw [← ha] at hoid
            exact hoid ▸ List.mem_map_of_mem Observation.id ho)
        have hfind : (a :: l).findIdx? (fun o => o.id = r.id) = some 0 := by
          rw [List.findIdx?_cons]
          simp [ha]
        simp only [mergeImport, List.foldl_cons, List.foldl_nil, hfind,
          List.set_cons_zero, List.map_cons]
        rw [if_pos ha, map_replace_of_no_match hl]
      · have hmem' : ∃ o ∈ l, o.id = r.id := by
          rcases hmem with ⟨o, ho, hid⟩
          cases List.mem_cons.mp ho with
          | inl heq => exact absurd hid (heq ▸ ha)
          | inr hl => exact ⟨o, hl, hid⟩
        obtain ⟨o, ho, hid⟩ := hmem'
        have hne : l.findIdx? (fun o => o.id = r.id) ≠ none := by
          intro hn
          have := List.findIdx?_eq_none_iff.mp hn o ho
          simp [hid] at this
        obtain ⟨j, hj⟩ := Option.ne_none_iff_exists'.mp hne
        have hfind : (a :: l).findIdx? (fun o => o.id = r.id) = some (j + 1) := by
          rw [List.findIdx?_cons]
          simp [ha, List.findIdx?_succ, hj]
        have ihl := ih hno.2 ⟨o, ho, hid⟩
        simp only [mergeImport, List.foldl_cons, List.foldl_nil, hj] at ihl
        simp only [mergeImport, List.foldl_cons, List.foldl_nil, hfind,
          List.set_cons_succ, List.map_cons]
        rw [if_neg ha, ihl]

/-- C5: the merge-import reconciler is a left fold over the incoming
batch: a record whose id matches replaces the existing record in place
with no field-level merge, an unmatched record is appended, the fold is
sequential so a later batch element supersedes an earlier one with the
same id, and importing id-1 "X" over an existing id-1 "Y" yields exactly
the single record id-1 "X". -/
theorem mergeImport_upsert_semantics
    (ex : List Observation) (r : Observation) (batch : List Observation)
    (hnodup : IdUnique ex) :
    ((∀ o ∈ ex, o.id ≠ r.id) → mergeImport ex [r] = ex ++ [r]) ∧
    ((∃ o ∈ ex, o.id = r.id) →
      mergeImport ex [r] = ex.map (fun o => if o.id = r.id then r else o)) ∧
    (mergeImport ex (batch ++ [r]) = mergeImport (mergeImport ex batch) [r]) ∧
    (mergeImport [{ obs0 with id := "1", speciesName := "Y" }]
        [{ obs0 with id := "1", speciesName := "X" }]
      = [{ obs0 with id := "1", speciesName := "X" }]) := by
  refine ⟨fun h => mergeImport_singleton_no_match ex r h,
    fun h => mergeImport_singleton_match ex r hnodup h, ?_, ?_⟩
  · simp [mergeImport, List.foldl_append]
  · decide

/-- Closed instance of the C5 theorem at a concrete current set, record
and empty batch. -/
theorem mergeImport_upsert_semantics_witness :
    IdUnique [srvObs] ∧
    (((∀ o ∈ [srvObs], o.id ≠ tempObs.id) →
        mergeImport [srvObs] [tempObs] = [srvObs] ++ [tempObs]) ∧
      ((∃ o ∈ [srvObs], o.id = tempObs.id) →
        mergeImport [srvObs] [tempObs]
          = [srvObs].map (fun o => if o.id = tempObs.id then tempObs else o)) ∧
      (mergeImport [srvObs] ([] ++ [tempObs])
        = mergeImport (mergeImport [srvObs] []) [tempObs]) ∧
      (mergeImport [{ obs0 with id := "1", speciesName := "Y" }]
          [{ obs0 with id := "1", speciesName := "X" }]
        = [{ obs0 with id := "1", speciesName := "X" }])) :=
  ⟨by decide, mergeImport_upsert_semantics [srvObs] tempObs [] (by decide)⟩

/-- Replacing-by-id never changes the multiset of ids of a cache: an
entry is only overwritten by a record carrying the same id. -/
theorem ids_map_replace (cache : List Observation) (n : Observation) :
    (cache.map (fun o => if o.id = n.id then n else o)).map Observation.id
      = cache.map Observation.id := by
  induction cache with
  | nil => rfl
  | cons a l ih =>
      by_cases h : a.id = n.id
      · simp only [List.map_cons, if_pos h, ih]
        rw [h]
      · simp only [List.map_cons, if_neg h, ih]

/-- C6 counterexample: starting from an empty Local Cache, two offline
creates both carrying the explicit id "a" leave the cache with two
entries of the same id. -/
theorem double_create_duplicate_ids :
    ¬ IdUnique (run ⟨[], []⟩
        [.createOp false none 0 (fun _ => .error "") { obs0 with id := "a" },
         .createOp false none 1 (fun _ => .error "") { obs0 with id := "a" }]).cache := by
  decide

/-- Freshness side conditions under which one operation cannot introduce
a duplicated id into the Local Cache: a create must bring an id not
already present (its placeholder or its server-assigned id), and a fetch
or post-drain refresh must return an id-unique record list. Updates,
deletes and imports need no condition. -/
def opSafe (s : SyncState) : Op → Prop
  | .fetchOp online remote =>
      if online then
        match remote with
        | .ok data => IdUnique (data.map mapToObservation)
        | .error _ => True
      else True
  | .createOp online user now remoteInsert obs =>
      if online then
        match user with
        | none => True
        | some u =>
            match remoteInsert (mapToRow obs u) with
            | .ok data =>
                (mapToObservation data).id ∉ s.cache.map Observation.id
            | .error _ => True
      else
        (if obs.id ≠ "" then obs.id else "temp-" ++ toString now)
          ∉ s.cache.map Observation.id
  | .updateOp _ _ _ _ _ => True
  | .deleteOp _ _ _ _ => True
  | .importOp _ => True
  | .drainOp _ _ _ fetchData =>
      match fetchData with
      | some data => IdUnique (data.map mapToObservation)
      | none => True

/-- Every operation of a trace satisfies its freshness side condition at
the state it actually runs in. -/
def SafeTrace : SyncState → List Op → Prop
  | _, [] => True
  | s, op :: ops => opSafe s op ∧ SafeTrace (step s op) ops

/-- One step of any operation preserves id-uniqueness of the Local
Cache, given the operation's freshness side condition. -/
theorem step_preserves_idUnique (s : SyncState) (op : Op)
    (hs : IdUnique s.cache) (hop : opSafe s op) :
    IdUnique (step s op).cache := by
  cases op with
  | fetchOp online remote =>
      cases online with
      | false => simpa [step, getObservations] using hs
      | true =>
          cases remote with
          | error e => simpa [step, getObservations] using hs
          | ok data =>
              simp only [opSafe, if_pos rfl] at hop
              simpa [step, getObservations] using hop
  | createOp online user now remoteInsert obs =>
      cases online with
      | false =>
          simp only [opSafe] at hop
          rw [if_neg (by simp)] at hop
          have hcache : (step s (.createOp false user now remoteInsert obs)).cache
              = { obs with id := if obs.id ≠ "" then obs.id
                    else "temp-" ++ toString now } :: s.cache := by
            simp [step, saveObservation]
          rw [hcache]
          unfold IdUnique
          rw [List.map_cons]
          exact List.nodup_cons.mpr ⟨by simpa using hop, hs⟩
      | true =>
          cases user with
          | none => simpa [step, saveObservation] using hs
          | some u =>
              simp only [opSafe, if_pos rfl] at hop
              cases hr : remoteInsert (mapToRow obs u) with
              | error msg =>
                  simpa [step, saveObservation, hr] using hs
              | ok data =>
                  rw [hr] at hop
                  have hcache : (step s (.createOp true (some u) now remoteInsert obs)).cache
                      = mapToObservation data :: s.cache := by
                    simp [step, saveObservation, hr]
                  rw [hcache]
                  unfold IdUnique
                  rw [List.map_cons]
                  exact List.nodup_cons.mpr ⟨by simpa using hop, hs⟩
  | updateOp online user now remoteUpdate obs =>
      have hids : IdUnique (s.cache.map (fun o => if o.id = obs.id then obs else o)) := by
        unfold IdUnique
        rw [ids_map_replace]
        exact hs
      cases online with
      | false =>
          have hcache : (step s (.updateOp false user now remoteUpdate obs)).cache
              = s.cache.map (fun o => if o.id = obs.id then obs else o) := by
            simp [step, updateObservation]
          rw [hcache]
          exact hids
      | true =>
          cases hr : remoteUpdate (mapToRow obs (user.getD "offline-user")) obs.id with
          | error msg => simpa [step, updateObservation, hr] using hs
          | ok u =>
              have hcache : (step s (.updateOp true user now remoteUpdate obs)).cache
                  = s.cache.map (fun o => if o.id = obs.id then obs else o) := by
                simp [step, updateObservation, hr]
              rw [hcache]
              exact hids
  | deleteOp online now remoteDelete id =>
      have hsub : IdUnique (s.cache.filter (fun o => o.id ≠ id)) :=
        List.Nodup.sublist (List.Sublist.map _ (List.filter_sublist s.cache)) hs
      cases online with
      | false =>
          have hcache : (step s (.deleteOp false now remoteDelete id)).cache
              = s.cache.filter (fun o => o.id ≠ id) := by
            simp [step, deleteObservation]
          rw [hcache]
          exact hsub
      | true =>
          cases hr : remoteDelete id with
          | error msg => simpa [step, deleteObservation, hr] using hs
          | ok u =>
              have hcache : (step s (.deleteOp true now remoteDelete id)).cache
                  = s.cache.filter (fun o => o.id ≠ id) := by
                simp [step, deleteObservation, hr]
              rw [hcache]
              exact hsub
  | importOp batch => simpa [step] using hs
  | drainOp online user remoteOk fetchData =>
      cases online with
      | false => simpa [step, processOfflineQueue] using hs
      | true =>
          cases hq : s.queue.isEmpty with
          | true => simpa [step, processOfflineQueue, hq] using hs
          | false =>
              cases user with
              | none => simpa [step, processOfflineQueue, hq] using hs
              | some u =>
                  cases hne : (drainLoop remoteOk u s.queue).1.isEmpty with
                  | false => simpa [step, processOfflineQueue, hq, hne] using hs
                  | true =>
                      cases fetchData with
                      | none =>
                          simpa [step, processOfflineQueue, hq, hne] using hs
                      | some data =>
                          simp only [opSafe] at hop
                          simpa [step, processOfflineQueue, hq, hne] using hop

/-- A trace of operations whose side conditions all hold preserves
id-uniqueness of the Local Cache. -/
theorem run_preserves_idUnique (ops : List Op) :
    ∀ s : SyncState, IdUnique s.cache → SafeTrace s ops →
      IdUnique (run s ops).cache := by
  induction ops with
  | nil => intro s hs _; simpa [run] using hs
  | cons op rest ih =>
      intro s hs htr
      exact ih (step s op) (step_preserves_idUnique s op hs htr.1) htr.2

/-- C6 amended: over every sequence of exposed operations from the empty
Local Cache, the cache never holds two entries with the same id —
provided each create brings a fresh id (not already cached) and each
fetch or post-drain refresh returns an id-unique record list; without the
create-freshness proviso the invariant fails (see the counterexample of
two creates with the same id). -/
theorem cache_ids_unique (ops : List Op) (h : SafeTrace ⟨[], []⟩ ops) :
    IdUnique (run ⟨[], []⟩ ops).cache :=
  run_preserves_idUnique ops ⟨[], []⟩ (by simp [IdUnique]) h

/-- Closed instance of the amended C6 theorem: two offline creates with
the distinct ids "a" and "b". -/
theorem cache_ids_unique_witness :
    SafeTrace ⟨[], []⟩
        [.createOp false none 0 (fun _ => .error "") { obs0 with id := "a" },
         .createOp false none 1 (fun _ => .error "") { obs0 with id := "b" }] ∧
    IdUnique (run ⟨[], []⟩
        [.createOp false none 0 (fun _ => .error "") { obs0 with id := "a" },
         .createOp false none 1 (fun _ => .error "") { obs0 with id := "b" }]).cache := by
  have hs : SafeTrace ⟨[], []⟩
      [.createOp false none 0 (fun _ => .error "") { obs0 with id := "a" },
       .createOp false none 1 (fun _ => .error "") { obs0 with id := "b" }] := by
    refine ⟨?_, ?_, trivial⟩
    · simp [opSafe]
    · simp [opSafe, step, saveObservation, addToQueue, obs0]
  exact ⟨hs, cache_ids_unique _ hs⟩
